import Mathlib

/-! Traffic light: message queue and phase cycling.

A shallow embedding of `TrafficLight.h` / `TrafficLight.cpp`.

* `MessageQueue T` is the class template of the same name; its `std::deque<T> _queue` is a
  `List T` (front of the deque = head of the list).  The mutex makes `send` and `receive`
  atomic, so each is one function on the queue content.  `receive` blocks while the queue is
  empty: here it yields `none`, meaning that the call has not returned.
* `TrafficLight` carries `_currentPhase` and `_messages`.
* `cycleThroughPhases` is an infinite loop; the clock readings and the values returned by
  `rand()` are inputs of every iteration, and a run is a finite number of iterations.
* `waitForGreen` is an infinite loop around `receive`; it is run against the sequence of
  values its `receive` calls deliver, or, for several waiting threads, as one loop iteration
  per scheduled thread.
-/

namespace TrafficSim

/-! ## Data model -/

/-- The enumeration `TrafficLightPhase {red, green}`. -/
inductive TrafficLightPhase where
  | red
  | green
  deriving DecidableEq, Repr

/-- The class template `MessageQueue<T>`: only `_queue` carries data. -/
structure MessageQueue (T : Type) where
  _queue : List T
  deriving DecidableEq, Repr

/-- The class `TrafficLight`: the current phase and the queue of phase updates. -/
structure TrafficLight where
  _currentPhase : TrafficLightPhase
  _messages : MessageQueue TrafficLightPhase
  deriving DecidableEq, Repr

/-! ## MessageQueue -/

/-- A default-constructed `MessageQueue`: the deque is empty. -/
def MessageQueue.empty {T : Type} : MessageQueue T :=
  { _queue := [] }

/-- The method `MessageQueue<T>::send`: `_queue.clear()` and then
`_queue.emplace_back(message)`. -/
def MessageQueue.send {T : Type} (_q : MessageQueue T) (message : T) : MessageQueue T :=
  let cleared : List T := []
  { _queue := cleared ++ [message] }

/-- The method `MessageQueue<T>::receive`: wait until `_queue` is not empty, then take
`_queue.front()` and `pop_front()`.  The result is `none` while the wait condition is false,
and otherwise the returned message with the queue left behind. -/
def MessageQueue.receive {T : Type} (q : MessageQueue T) : Option (T × MessageQueue T) :=
  match q._queue with
  | [] => none
  | message :: rest => some (message, { _queue := rest })

/-- One call on a queue: a `send` of a value, or a `receive`. -/
inductive QueueOp (T : Type) where
  | send (v : T)
  | receive
  deriving DecidableEq, Repr

/-- The queue after one call; a `receive` on an empty queue does not complete. -/
def MessageQueue.apply {T : Type} (q : MessageQueue T) : QueueOp T → Option (MessageQueue T)
  | QueueOp.send v => some (q.send v)
  | QueueOp.receive => (q.receive).map Prod.snd

/-- The queue after a sequence of completed calls, in order. -/
def MessageQueue.run {T : Type} (q : MessageQueue T) : List (QueueOp T) → Option (MessageQueue T)
  | [] => some q
  | op :: ops => (q.apply op).bind (fun q2 => MessageQueue.run q2 ops)

/-- What `n` successive `receive` calls obtain with no `send` in between: `some v` for a call
that returns `v`, `none` for a call that finds the queue empty and stays blocked. -/
def MessageQueue.receiveAttempts {T : Type} (q : MessageQueue T) : Nat → List (Option T)
  | 0 => []
  | n + 1 =>
    match q.receive with
    | none => none :: MessageQueue.receiveAttempts q n
    | some (v, q2) => some v :: MessageQueue.receiveAttempts q2 n

/-! ## TrafficLight -/

/-- The constructor `TrafficLight::TrafficLight` (named `ctor`, since a definition called
`TrafficLight.TrafficLight` would hide the type inside its own namespace): the phase is set
to red, and `_messages` is default-constructed, hence empty. -/
def TrafficLight.ctor : TrafficLight :=
  { _currentPhase := TrafficLightPhase.red, _messages := MessageQueue.empty }

/-- The getter `TrafficLight::getCurrentPhase`. -/
def TrafficLight.getCurrentPhase (t : TrafficLight) : TrafficLightPhase :=
  t._currentPhase

/-- The loop of `TrafficLight::waitForGreen`, run against the values that its successive
`receive` calls return (`delivered k` is what call number `k` returns).  `consumed` is the
number of calls made so far and `fuel` bounds the number of loop iterations that are run.
The result is `some n` when the method returns after `n` calls of `receive`, and `none` when
it is still in the loop. -/
def TrafficLight.waitForGreen (delivered : Nat → TrafficLightPhase) :
    (fuel : Nat) → (consumed : Nat) → Option Nat
  | 0, _ => none
  | fuel + 1, consumed =>
    if delivered consumed = TrafficLightPhase.green then some (consumed + 1)
    else TrafficLight.waitForGreen delivered fuel (consumed + 1)

/-! ## The background loop `cycleThroughPhases` -/

/-- The expression `rand()%(6000-4000 + 1) + 4000` of lines 89 and 105, for the value `r`
that `rand()` returned.  The C++ `%` on `int` truncates towards zero, as `Int.tmod` does. -/
def drawDuration (r : Int) : Int :=
  Int.tmod r (6000 - 4000 + 1) + 4000

/-- The value of `RAND_MAX` in glibc, the largest value `rand()` returns there. -/
def RAND_MAX : Nat := 2147483647

/-- How many of the values `0..randMax` that `rand()` can return give the duration `d`. -/
def durationCount (randMax : Nat) (d : Int) : Nat :=
  Nat.count (fun r : Nat => drawDuration (r : Int) = d) (randMax + 1)

/-- The expression
`duration_cast<milliseconds>(system_clock::now() - lastUpdate).count()` of line 101.
Time points are counted in ticks of the system clock, `ticksPerMs` ticks to the millisecond;
the cast truncates towards zero. -/
def timeSince (ticksPerMs : Nat) (lastUpdate now : Int) : Int :=
  Int.tdiv (now - lastUpdate) (ticksPerMs : Int)

/-- The state of the thread that runs `cycleThroughPhases`: the traffic light it works on and
the two local variables of the method. -/
structure CycleState where
  light : TrafficLight
  randCycleDuration : Int
  lastUpdate : Int
  deriving DecidableEq, Repr

/-- What one iteration of the loop reads from outside: the clock at line 101, and, when the
cycle has expired, the value of `rand()` at line 105 and the clock at line 120. -/
structure IterationInput where
  now : Int
  rand : Int
  nowReset : Int
  deriving DecidableEq, Repr

/-- Lines 89 to 93 of `cycleThroughPhases`: the first duration is drawn from `rand0`, and the
stop watch is started at `now0`. -/
def TrafficLight.cycleThroughPhases_start (light : TrafficLight) (rand0 now0 : Int) :
    CycleState :=
  { light := light, randCycleDuration := drawDuration rand0, lastUpdate := now0 }

/-- The test `timeSinceLastUpdate >= randCycleDuration` of line 102. -/
def TrafficLight.cycleExpired (ticksPerMs : Nat) (s : CycleState) (i : IterationInput) : Bool :=
  decide (timeSince ticksPerMs s.lastUpdate i.now ≥ s.randCycleDuration)

/-- One iteration of the `while(true)` loop of `cycleThroughPhases`, lines 98 to 121 (the
sleep changes no data). -/
def TrafficLight.cycleThroughPhases_iteration (ticksPerMs : Nat) (s : CycleState)
    (i : IterationInput) : CycleState :=
  if TrafficLight.cycleExpired ticksPerMs s i then
    let randCycleDuration := drawDuration i.rand
    let _currentPhase :=
      if s.light._currentPhase = TrafficLightPhase.red then TrafficLightPhase.green
      else TrafficLightPhase.red
    let _messages := s.light._messages.send _currentPhase
    { light := { _currentPhase := _currentPhase, _messages := _messages },
      randCycleDuration := randCycleDuration,
      lastUpdate := i.nowReset }
  else s

/-- The method `TrafficLight::cycleThroughPhases` run for as many loop iterations as there
are inputs. -/
def TrafficLight.cycleThroughPhases (ticksPerMs : Nat) (light : TrafficLight)
    (rand0 now0 : Int) (inputs : List IterationInput) : CycleState :=
  inputs.foldl (TrafficLight.cycleThroughPhases_iteration ticksPerMs)
    (TrafficLight.cycleThroughPhases_start light rand0 now0)

/-- The number of timer expiries in a run of loop iterations from the state `s`: the
iterations whose test of line 102 succeeds. -/
def TrafficLight.expiries (ticksPerMs : Nat) : CycleState → List IterationInput → Nat
  | _, [] => 0
  | s, i :: rest =>
    (if TrafficLight.cycleExpired ticksPerMs s i then 1 else 0)
      + TrafficLight.expiries ticksPerMs
          (TrafficLight.cycleThroughPhases_iteration ticksPerMs s i) rest

/-! ## The loop together with consumers -/

/-- The running light together with the history of the arguments of `send` (line 117), oldest
first.  The history is not program data; it records what has been published. -/
structure Simulation where
  cycle : CycleState
  published : List TrafficLightPhase
  deriving DecidableEq, Repr

/-- The atomic steps of a running light: a whole iteration of the background loop, or a
`receive` call of some consumer that returns. -/
inductive SimAction where
  | iteration (i : IterationInput)
  | receive
  deriving DecidableEq, Repr

/-- A newly constructed light whose background loop has just started. -/
def Simulation.start (rand0 now0 : Int) : Simulation :=
  { cycle := TrafficLight.cycleThroughPhases_start TrafficLight.ctor rand0 now0,
    published := [] }

/-- One atomic step.  A `receive` on an empty queue does not return, so it is no step. -/
def Simulation.step (ticksPerMs : Nat) (s : Simulation) : SimAction → Option Simulation
  | SimAction.iteration i =>
    let next := TrafficLight.cycleThroughPhases_iteration ticksPerMs s.cycle i
    some
      { cycle := next,
        published :=
          if TrafficLight.cycleExpired ticksPerMs s.cycle i then
            s.published ++ [next.light._currentPhase]
          else s.published }
  | SimAction.receive =>
    match s.cycle.light._messages.receive with
    | none => none
    | some (_, rest) =>
      some { s with cycle := { s.cycle with light := { s.cycle.light with _messages := rest } } }

/-- A finite sequence of atomic steps. -/
def Simulation.run (ticksPerMs : Nat) (s : Simulation) : List SimAction → Option Simulation
  | [] => some s
  | a :: rest => (s.step ticksPerMs a).bind (fun s2 => Simulation.run ticksPerMs s2 rest)

/-- The history green, red, green, ... of the given length. -/
def alternating (n : Nat) : List TrafficLightPhase :=
  (List.range n).map
    (fun j => if j % 2 = 0 then TrafficLightPhase.green else TrafficLightPhase.red)

/-- What holds of every state of a running light: the published history alternates from
green, the phase is the last published value (red when there is none), and every pending
value is the current phase. -/
def Simulation.Consistent (s : Simulation) : Prop :=
  s.published = alternating s.published.length ∧
  s.cycle.light._currentPhase
    = (if s.published.length % 2 = 1 then TrafficLightPhase.green else TrafficLightPhase.red) ∧
  ∀ v ∈ s.cycle.light._messages._queue, v = s.cycle.light._currentPhase

/-! ## Several threads in `waitForGreen` -/

/-- A thread inside `waitForGreen`: the values its `receive` calls have returned so far,
oldest first, and whether the method has returned. -/
structure Waiter where
  received : List TrafficLightPhase
  returned : Bool
  deriving DecidableEq, Repr

/-- A light with threads that wait for green, and the values that are still to be sent. -/
structure Scenario where
  light : TrafficLight
  toPublish : List TrafficLightPhase
  waiters : List Waiter
  deriving DecidableEq, Repr

/-- The atomic steps of a scenario: the next value is sent, or the `receive` call of the
waiting thread number `w` returns. -/
inductive ScenarioEvent where
  | publish
  | receive (w : Nat)
  deriving DecidableEq, Repr

/-- One loop iteration of `waitForGreen` for a thread: `receive` returns a value, and the
method returns exactly when that value is green. -/
def Waiter.waitForGreen_iteration (w : Waiter) (q : MessageQueue TrafficLightPhase) :
    Option (Waiter × MessageQueue TrafficLightPhase) :=
  match q.receive with
  | none => none
  | some (v, rest) =>
    some ({ received := w.received ++ [v],
            returned := decide (v = TrafficLightPhase.green) }, rest)

/-- One atomic step of a scenario; `none` when the step cannot happen (nothing left to send,
no such thread, the thread has left `waitForGreen`, or its `receive` is blocked). -/
def Scenario.step (s : Scenario) : ScenarioEvent → Option Scenario
  | ScenarioEvent.publish =>
    match s.toPublish with
    | [] => none
    | v :: rest =>
      some { s with light := { s.light with _messages := s.light._messages.send v },
                    toPublish := rest }
  | ScenarioEvent.receive w =>
    match s.waiters[w]? with
    | none => none
    | some wt =>
      if wt.returned then none
      else
        match wt.waitForGreen_iteration s.light._messages with
        | none => none
        | some (wt2, rest) =>
          some { s with light := { s.light with _messages := rest },
                        waiters := s.waiters.set w wt2 }

/-- A finite sequence of atomic steps of a scenario. -/
def Scenario.run (s : Scenario) : List ScenarioEvent → Option Scenario
  | [] => some s
  | e :: rest => (s.step e).bind (fun s2 => Scenario.run s2 rest)

/-- The number of threads whose `waitForGreen` has returned. -/
def Scenario.returnedCount (s : Scenario) : Nat :=
  s.waiters.countP (fun w => w.returned)

/-- Five threads have called `waitForGreen` on a new light, nothing has been sent, and red
and then green are going to be sent. -/
def fiveWaiters : Scenario :=
  { light := TrafficLight.ctor,
    toPublish := [TrafficLightPhase.red, TrafficLightPhase.green],
    waiters := List.replicate 5 { received := [], returned := false } }

/-- What holds of every state of the scenario `fiveWaiters`: there are five threads; what is
left to send is a final part of red, green; green is not pending while something is left to
send; green is in exactly one place (with a thread that has returned, pending in the queue,
or still to be sent); and a thread that has returned has received green. -/
def Scenario.Inv (s : Scenario) : Prop :=
  s.waiters.length = 5 ∧
  (s.toPublish = [TrafficLightPhase.red, TrafficLightPhase.green] ∨
    s.toPublish = [TrafficLightPhase.green] ∨ s.toPublish = []) ∧
  (s.toPublish ≠ [] → TrafficLightPhase.green ∉ s.light._messages._queue) ∧
  s.returnedCount + s.light._messages._queue.count TrafficLightPhase.green
      + s.toPublish.count TrafficLightPhase.green = 1 ∧
  ∀ w ∈ s.waiters, w.returned = true → TrafficLightPhase.green ∈ w.received

/-! ## Lemmas on the queue -/

theorem MessageQueue.send_eq {T : Type} (q : MessageQueue T) (v : T) :
    q.send v = { _queue := [v] } := by
  simp [MessageQueue.send]

theorem MessageQueue.foldl_send_snoc {T : Type} (q : MessageQueue T) (vs : List T) (v : T) :
    (vs ++ [v]).foldl MessageQueue.send q = { _queue := [v] } := by
  rw [List.foldl_append]
  simp [MessageQueue.send_eq]

theorem MessageQueue.receive_singleton {T : Type} (v : T) :
    MessageQueue.receive { _queue := [v] } = some (v, { _queue := [] }) := by
  simp [MessageQueue.receive]

theorem MessageQueue.apply_length_le_one {T : Type} (q q2 : MessageQueue T) (op : QueueOp T)
    (hq : q._queue.length ≤ 1) (h : q.apply op = some q2) : q2._queue.length ≤ 1 := by
  cases op with
  | send v =>
    simp only [MessageQueue.apply, Option.some.injEq] at h
    subst h
    simp [MessageQueue.send_eq]
  | receive =>
    rcases q with ⟨l⟩
    cases l with
    | nil => simp [MessageQueue.apply, MessageQueue.receive] at h
    | cons a rest =>
      simp only [MessageQueue.apply, MessageQueue.receive, Option.map_some', Option.some.injEq]
        at h
      subst h
      simp only [List.length_cons] at hq
      simp only
      omega

theorem MessageQueue.run_length_le_one {T : Type} (ops : List (QueueOp T)) :
    ∀ (q q2 : MessageQueue T), q._queue.length ≤ 1 → q.run ops = some q2 →
      q2._queue.length ≤ 1 := by
  induction ops with
  | nil =>
    intro q q2 hq h
    simp only [MessageQueue.run, Option.some.injEq] at h
    subst h
    exact hq
  | cons op rest ih =>
    intro q q2 hq h
    simp only [MessageQueue.run] at h
    cases hop : q.apply op with
    | none => simp [hop] at h
    | some q1 =>
      simp only [hop, Option.some_bind] at h
      exact ih q1 q2 (MessageQueue.apply_length_le_one q q1 op hq hop) h

theorem MessageQueue.receiveAttempts_empty {T : Type} (n : Nat) :
    MessageQueue.receiveAttempts ({ _queue := [] } : MessageQueue T) n
      = List.replicate n none := by
  induction n with
  | zero => simp [MessageQueue.receiveAttempts]
  | succ n ih => simp [MessageQueue.receiveAttempts, MessageQueue.receive, ih, List.replicate_succ]

/-! ## Claims on the queue -/

/-- C1: after a non-empty sequence of values has been sent in order to any queue, with no
receive in between, the next receive returns the last value sent (and leaves the queue
empty). -/
theorem MessageQueue.receive_after_sends {T : Type} (q : MessageQueue T) (vs : List T)
    (h : vs ≠ []) :
    (vs.foldl MessageQueue.send q).receive = some (vs.getLast h, { _queue := [] }) := by
  obtain ⟨front, v, rfl⟩ : ∃ front v, vs = front ++ [v] :=
    ⟨vs.dropLast, vs.getLast h, (List.dropLast_append_getLast h).symm⟩
  rw [MessageQueue.foldl_send_snoc, MessageQueue.receive_singleton]
  simp

/-- C1, the scenario of the specification: red and then green are sent to an empty queue, and
the receive that follows returns green. -/
theorem MessageQueue.receive_after_sends_witness :
    [TrafficLightPhase.red, TrafficLightPhase.green] ≠ [] ∧
    (([TrafficLightPhase.red, TrafficLightPhase.green].foldl MessageQueue.send
        MessageQueue.empty).receive).map Prod.fst = some TrafficLightPhase.green :=
  ⟨by decide, by
    rw [MessageQueue.receive_after_sends MessageQueue.empty
      [TrafficLightPhase.red, TrafficLightPhase.green] (by decide)]
    rfl⟩

/-- C2: from the empty queue, after every sequence of sends and returning receives the
deque holds at most one element, and a send of v right after it leaves exactly v. -/
theorem MessageQueue.single_slot {T : Type} (ops : List (QueueOp T)) (q : MessageQueue T)
    (h : (MessageQueue.empty : MessageQueue T).run ops = some q) :
    q._queue.length ≤ 1 ∧ ∀ v : T, (q.send v)._queue = [v] := by
  refine ⟨MessageQueue.run_length_le_one ops MessageQueue.empty q ?_ h, ?_⟩
  · simp [MessageQueue.empty]
  · intro v
    simp [MessageQueue.send_eq]

/-- C2 at the calls send red, send green, receive, send red, from the empty queue. -/
theorem MessageQueue.single_slot_witness :
    (MessageQueue.empty : MessageQueue TrafficLightPhase).run
        [QueueOp.send TrafficLightPhase.red, QueueOp.send TrafficLightPhase.green,
          QueueOp.receive, QueueOp.send TrafficLightPhase.red]
      = some { _queue := [TrafficLightPhase.red] } ∧
    ([TrafficLightPhase.red].length ≤ 1 ∧
      ∀ v : TrafficLightPhase,
        (MessageQueue.send { _queue := [TrafficLightPhase.red] } v)._queue = [v]) :=
  ⟨by decide,
    MessageQueue.single_slot
      [QueueOp.send TrafficLightPhase.red, QueueOp.send TrafficLightPhase.green,
        QueueOp.receive, QueueOp.send TrafficLightPhase.red]
      { _queue := [TrafficLightPhase.red] } (by decide)⟩

/-- C4: a receive on a queue with a pending value returns the front element and removes it;
after send v and one receive the queue is empty and a further receive does not return; and
of any number of receive calls that follow one send v, only the first returns, with v. -/
theorem MessageQueue.receive_removes {T : Type} (q : MessageQueue T) (v : T) :
    (∀ rest : List T, q._queue = v :: rest → q.receive = some (v, { _queue := rest })) ∧
    (q.send v).receive = some (v, { _queue := [] }) ∧
    MessageQueue.receive ({ _queue := [] } : MessageQueue T) = none ∧
    ∀ n : Nat, (q.send v).receiveAttempts (n + 1) = some v :: List.replicate n none := by
  refine ⟨?_, ?_, ?_, ?_⟩
  · intro rest hq
    simp [MessageQueue.receive, hq]
  · rw [MessageQueue.send_eq, MessageQueue.receive_singleton]
  · simp [MessageQueue.receive]
  · intro n
    rw [MessageQueue.send_eq]
    simp [MessageQueue.receiveAttempts, MessageQueue.receive,
      MessageQueue.receiveAttempts_empty]

/-- C4 at the queue that holds green and red, where receive returns green and leaves red. -/
theorem MessageQueue.receive_removes_witness :
    MessageQueue.receive { _queue := [TrafficLightPhase.green, TrafficLightPhase.red] }
      = some (TrafficLightPhase.green, { _queue := [TrafficLightPhase.red] }) :=
  (MessageQueue.receive_removes
    { _queue := [TrafficLightPhase.green, TrafficLightPhase.red] }
    TrafficLightPhase.green).1 [TrafficLightPhase.red] rfl

/-! ## waitForGreen against a sequence of delivered values -/

theorem TrafficLightPhase.eq_red_of_ne_green (p : TrafficLightPhase)
    (h : p ≠ TrafficLightPhase.green) : p = TrafficLightPhase.red := by
  cases p with
  | red => rfl
  | green => exact absurd rfl h

theorem TrafficLight.waitForGreen_returns (delivered : Nat → TrafficLightPhase) (k : Nat) :
    ∀ (fuel consumed : Nat), delivered (consumed + k) = TrafficLightPhase.green →
      (∀ i, i < k → delivered (consumed + i) = TrafficLightPhase.red) → k + 1 ≤ fuel →
      TrafficLight.waitForGreen delivered fuel consumed = some (consumed + k + 1) := by
  induction k with
  | zero =>
    intro fuel consumed hg _ hf
    obtain ⟨f, rfl⟩ : ∃ f, fuel = f + 1 := ⟨fuel - 1, by omega⟩
    simp only [Nat.add_zero] at hg
    simp [TrafficLight.waitForGreen, hg]
  | succ k ih =>
    intro fuel consumed hg hr hf
    obtain ⟨f, rfl⟩ : ∃ f, fuel = f + 1 := ⟨fuel - 1, by omega⟩
    have h0 : delivered consumed = TrafficLightPhase.red := by
      have := hr 0 (by omega)
      simpa using this
    have step := ih f (consumed + 1)
      (by rw [← hg]; congr 1; omega)
      (fun i hi => by rw [← hr (i + 1) (by omega)]; congr 1; omega)
      (by omega)
    simp only [TrafficLight.waitForGreen, h0, reduceCtorEq, if_false]
    rw [step]
    congr 1
    omega

theorem TrafficLight.waitForGreen_sound (delivered : Nat → TrafficLightPhase) (fuel : Nat) :
    ∀ (consumed n : Nat), TrafficLight.waitForGreen delivered fuel consumed = some n →
      ∃ k, n = k + 1 ∧ consumed ≤ k ∧ delivered k = TrafficLightPhase.green ∧
        ∀ i, consumed ≤ i → i < k → delivered i = TrafficLightPhase.red := by
  induction fuel with
  | zero =>
    intro consumed n h
    simp [TrafficLight.waitForGreen] at h
  | succ f ih =>
    intro consumed n h
    by_cases hg : delivered consumed = TrafficLightPhase.green
    · simp only [TrafficLight.waitForGreen, hg, if_true, Option.some.injEq] at h
      exact ⟨consumed, h.symm, le_refl _, hg, fun i h1 h2 => absurd h1 (by omega)⟩
    · simp only [TrafficLight.waitForGreen, hg, if_false] at h
      obtain ⟨k, hn, hk, hgk, hred⟩ := ih (consumed + 1) n h
      refine ⟨k, hn, by omega, hgk, ?_⟩
      intro i h1 h2
      by_cases hi : i = consumed
      · rw [hi]
        exact TrafficLightPhase.eq_red_of_ne_green _ hg
      · exact hred i (by omega) h2

theorem TrafficLight.waitForGreen_all_red (delivered : Nat → TrafficLightPhase)
    (hred : ∀ i, delivered i = TrafficLightPhase.red) (fuel : Nat) :
    ∀ consumed : Nat, TrafficLight.waitForGreen delivered fuel consumed = none := by
  induction fuel with
  | zero =>
    intro consumed
    simp [TrafficLight.waitForGreen]
  | succ f ih =>
    intro consumed
    simp [TrafficLight.waitForGreen, hred consumed, ih (consumed + 1)]

/-- C3: against any sequence of delivered values, waitForGreen returns at the first green
value, after exactly the receive calls up to and including that one, as soon as it is given
that many loop iterations; whenever it returns, it does so at the first green value; and when
every delivered value is red it does not return, however many iterations it runs. -/
theorem TrafficLight.waitForGreen_first_green (delivered : Nat → TrafficLightPhase) :
    (∀ k : Nat, delivered k = TrafficLightPhase.green →
        (∀ i, i < k → delivered i = TrafficLightPhase.red) →
        ∀ fuel : Nat, k + 1 ≤ fuel →
          TrafficLight.waitForGreen delivered fuel 0 = some (k + 1)) ∧
    (∀ fuel n : Nat, TrafficLight.waitForGreen delivered fuel 0 = some n →
        ∃ k, n = k + 1 ∧ delivered k = TrafficLightPhase.green ∧
          ∀ i, i < k → delivered i = TrafficLightPhase.red) ∧
    ((∀ i, delivered i = TrafficLightPhase.red) →
        ∀ fuel : Nat, TrafficLight.waitForGreen delivered fuel 0 = none) := by
  refine ⟨?_, ?_, ?_⟩
  · intro k hg hr fuel hf
    have h := TrafficLight.waitForGreen_returns delivered k fuel 0
      (by simpa using hg) (fun i hi => by simpa using hr i hi) hf
    simpa using h
  · intro fuel n h
    obtain ⟨k, hn, _, hg, hr⟩ := TrafficLight.waitForGreen_sound delivered fuel 0 n h
    exact ⟨k, hn, hg, fun i hi => hr i (Nat.zero_le i) hi⟩
  · intro hred fuel
    exact TrafficLight.waitForGreen_all_red delivered hred fuel 0

/-- C3 at the deliveries red, red, green, then red for ever: waitForGreen returns after
three receive calls. -/
theorem TrafficLight.waitForGreen_first_green_witness :
    TrafficLight.waitForGreen
      (fun k => if k = 2 then TrafficLightPhase.green else TrafficLightPhase.red) 3 0
      = some 3 :=
  (TrafficLight.waitForGreen_first_green
      (fun k => if k = 2 then TrafficLightPhase.green else TrafficLightPhase.red)).1 2
    (by decide) (fun i hi => by simp; omega) 3 (by decide)

/-! ## The cycle duration -/

theorem drawDuration_of_nonneg (r : Int) (h : 0 ≤ r) : drawDuration r = r % 2001 + 4000 := by
  unfold drawDuration
  rw [Int.tmod_eq_emod h (by norm_num)]
  norm_num

theorem Nat.count_iff_congr (p q : Nat → Prop) [DecidablePred p] [DecidablePred q]
    (h : ∀ k, p k ↔ q k) (n : Nat) : Nat.count p n = Nat.count q n := by
  induction n with
  | zero => simp
  | succ n ih => simp [Nat.count_succ, ih, h n]

theorem durationCount_eq (randMax : Nat) (d : Int) (h1 : 4000 ≤ d) (h2 : d ≤ 6000) :
    durationCount randMax d
      = (randMax + 1) / 2001
        + if (d - 4000).toNat < (randMax + 1) % 2001 then 1 else 0 := by
  unfold durationCount
  have hv : (d - 4000).toNat % 2001 = (d - 4000).toNat := Nat.mod_eq_of_lt (by omega)
  rw [Nat.count_iff_congr _ (fun r : Nat => r ≡ (d - 4000).toNat [MOD 2001]) ?_ (randMax + 1),
    Nat.count_modEq_card (randMax + 1) (by norm_num) (d - 4000).toNat, hv]
  intro k
  rw [drawDuration_of_nonneg (k : Int) (Int.natCast_nonneg k)]
  unfold Nat.ModEq
  rw [hv]
  omega

/-- C7: for every non-negative value of rand() the drawn duration lies in the closed interval
from 4000 to 6000, and every integer of that interval is the duration of some rand() value
between 0 and RAND_MAX (any RAND_MAX that the C standard allows, that is, at least 32767). -/
theorem drawDuration_range (randMax : Int) (hmax : 32767 ≤ randMax) :
    (∀ r : Int, 0 ≤ r → 4000 ≤ drawDuration r ∧ drawDuration r ≤ 6000) ∧
    (∀ d : Int, 4000 ≤ d → d ≤ 6000 →
      ∃ r : Int, 0 ≤ r ∧ r ≤ randMax ∧ drawDuration r = d) := by
  refine ⟨?_, ?_⟩
  · intro r hr
    rw [drawDuration_of_nonneg r hr]
    omega
  · intro d h1 h2
    refine ⟨d - 4000, by omega, by omega, ?_⟩
    rw [drawDuration_of_nonneg (d - 4000) (by omega)]
    omega

/-- C7 with the RAND_MAX of glibc, at the values 0 and 2147483647 of rand(). -/
theorem drawDuration_range_witness :
    (32767 : Int) ≤ (RAND_MAX : Int) ∧ drawDuration 0 = 4000 ∧ drawDuration 2000 = 6000 ∧
    (4000 ≤ drawDuration 2147483647 ∧ drawDuration 2147483647 ≤ 6000) :=
  ⟨by decide, by decide, by decide,
    (drawDuration_range (RAND_MAX : Int) (by decide)).1 2147483647 (by decide)⟩

/-- C9, as the code has it: with RAND_MAX = 2147483647 the durations 4000 to 4442 are each
drawn by 1073206 values of rand(), and the durations 4443 to 6000 by 1073205 values each. -/
theorem durationCount_RAND_MAX (d : Int) (h1 : 4000 ≤ d) (h2 : d ≤ 6000) :
    durationCount RAND_MAX d = if d ≤ 4442 then 1073206 else 1073205 := by
  rw [durationCount_eq RAND_MAX d h1 h2]
  have e1 : (RAND_MAX + 1) / 2001 = 1073205 := by decide
  have e2 : (RAND_MAX + 1) % 2001 = 443 := by decide
  rw [e1, e2]
  by_cases hd : d ≤ 4442
  · rw [if_pos hd, if_pos (by omega)]
  · rw [if_neg hd, if_neg (by omega)]

/-- C9 at the duration 5000, which 1073205 values of rand() give. -/
theorem durationCount_RAND_MAX_witness :
    (4000 : Int) ≤ 5000 ∧ (5000 : Int) ≤ 6000 ∧ durationCount RAND_MAX 5000 = 1073205 :=
  ⟨by decide, by decide, by
    rw [durationCount_RAND_MAX 5000 (by decide) (by decide)]
    decide⟩

/-- C9 fails as stated: the duration 4000 is drawn by one more value of rand() than the
duration 6000. -/
theorem durationCount_not_uniform :
    durationCount RAND_MAX 4000 = 1073206 ∧ durationCount RAND_MAX 6000 = 1073205 ∧
    durationCount RAND_MAX 4000 ≠ durationCount RAND_MAX 6000 := by
  have e1 : (RAND_MAX + 1) / 2001 = 1073205 := by decide
  have e2 : (RAND_MAX + 1) % 2001 = 443 := by decide
  have h4 : durationCount RAND_MAX 4000 = 1073206 := by
    rw [durationCount_eq RAND_MAX 4000 (by decide) (by decide), e1, e2]
    decide
  have h6 : durationCount RAND_MAX 6000 = 1073205 := by
    rw [durationCount_eq RAND_MAX 6000 (by decide) (by decide), e1, e2]
    decide
  refine ⟨h4, h6, ?_⟩
  rw [h4, h6]
  decide

/-! ## The background loop -/

theorem TrafficLight.iteration_of_expired (ticksPerMs : Nat) (s : CycleState)
    (i : IterationInput) (h : TrafficLight.cycleExpired ticksPerMs s i = true) :
    TrafficLight.cycleThroughPhases_iteration ticksPerMs s i
      = { light :=
            { _currentPhase :=
                if s.light._currentPhase = TrafficLightPhase.red then TrafficLightPhase.green
                else TrafficLightPhase.red,
              _messages :=
                { _queue :=
                    [if s.light._currentPhase = TrafficLightPhase.red then
                        TrafficLightPhase.green
                      else TrafficLightPhase.red] } },
          randCycleDuration := drawDuration i.rand,
          lastUpdate := i.nowReset } := by
  simp [TrafficLight.cycleThroughPhases_iteration, h, MessageQueue.send_eq]

theorem TrafficLight.iteration_of_not_expired (ticksPerMs : Nat) (s : CycleState)
    (i : IterationInput) (h : TrafficLight.cycleExpired ticksPerMs s i = false) :
    TrafficLight.cycleThroughPhases_iteration ticksPerMs s i = s := by
  simp [TrafficLight.cycleThroughPhases_iteration, h]

theorem TrafficLight.phase_after_run (ticksPerMs : Nat) (inputs : List IterationInput) :
    ∀ s : CycleState,
      (inputs.foldl (TrafficLight.cycleThroughPhases_iteration ticksPerMs) s).light._currentPhase
        = if TrafficLight.expiries ticksPerMs s inputs % 2 = 1 then
            (if s.light._currentPhase = TrafficLightPhase.red then TrafficLightPhase.green
              else TrafficLightPhase.red)
          else s.light._currentPhase := by
  induction inputs with
  | nil =>
    intro s
    simp [TrafficLight.expiries]
  | cons i rest ih =>
    intro s
    rw [List.foldl_cons, ih, TrafficLight.expiries]
    cases hexp : TrafficLight.cycleExpired ticksPerMs s i with
    | false =>
      rw [TrafficLight.iteration_of_not_expired ticksPerMs s i hexp]
      simp
    | true =>
      rw [TrafficLight.iteration_of_expired ticksPerMs s i hexp]
      simp only [if_true]
      generalize TrafficLight.expiries ticksPerMs _ rest = m
      rcases Nat.mod_two_eq_zero_or_one m with h0 | h1
      · have h : (1 + m) % 2 = 1 := by omega
        rw [h0, h]
        simp
      · have h : (1 + m) % 2 = 0 := by omega
        rw [h1, h]
        cases s.light._currentPhase <;> simp

/-- C6: a newly constructed light reports red, and after a run of the background loop with
exactly n timer expiries getCurrentPhase returns green when n is odd and red when n is
even. -/
theorem TrafficLight.phase_after_expiries (ticksPerMs : Nat) (rand0 now0 : Int)
    (inputs : List IterationInput) (n : Nat)
    (h : TrafficLight.expiries ticksPerMs
      (TrafficLight.cycleThroughPhases_start TrafficLight.ctor rand0 now0) inputs = n) :
    TrafficLight.ctor.getCurrentPhase = TrafficLightPhase.red ∧
    (TrafficLight.cycleThroughPhases ticksPerMs TrafficLight.ctor rand0 now0
        inputs).light.getCurrentPhase
      = if n % 2 = 1 then TrafficLightPhase.green else TrafficLightPhase.red := by
  refine ⟨rfl, ?_⟩
  unfold TrafficLight.cycleThroughPhases TrafficLight.getCurrentPhase
  rw [TrafficLight.phase_after_run, h]
  simp [TrafficLight.cycleThroughPhases_start, TrafficLight.ctor]

/-- C6 on a run of three loop iterations, the first and the third of which see the timer
expired: two expiries, and the phase is red again. -/
theorem TrafficLight.phase_after_expiries_witness :
    TrafficLight.expiries 1 (TrafficLight.cycleThroughPhases_start TrafficLight.ctor 7 0)
        [{ now := 4007, rand := 0, nowReset := 4008 },
          { now := 4009, rand := 0, nowReset := 4009 },
          { now := 8008, rand := 0, nowReset := 8008 }] = 2 ∧
    (TrafficLight.cycleThroughPhases 1 TrafficLight.ctor 7 0
        [{ now := 4007, rand := 0, nowReset := 4008 },
          { now := 4009, rand := 0, nowReset := 4009 },
          { now := 8008, rand := 0, nowReset := 8008 }]).light.getCurrentPhase
      = TrafficLightPhase.red :=
  ⟨by decide,
    (TrafficLight.phase_after_expiries 1 7 0
      [{ now := 4007, rand := 0, nowReset := 4008 },
        { now := 4009, rand := 0, nowReset := 4009 },
        { now := 8008, rand := 0, nowReset := 8008 }] 2 (by decide)).2⟩

/-- C8: one loop iteration.  When the measured time is at least the drawn duration, the phase
becomes the opposite one, the queue holds exactly the new phase, the duration is drawn anew
from the next rand() value and the start time is reset; when it is less, the phase, the
queue, the duration and the start time all stay as they are. -/
theorem TrafficLight.cycleThroughPhases_iteration_spec (ticksPerMs : Nat) (s : CycleState)
    (i : IterationInput) :
    (timeSince ticksPerMs s.lastUpdate i.now ≥ s.randCycleDuration →
      (s.light._currentPhase = TrafficLightPhase.red →
        (TrafficLight.cycleThroughPhases_iteration ticksPerMs s i).light.getCurrentPhase
          = TrafficLightPhase.green) ∧
      (s.light._currentPhase = TrafficLightPhase.green →
        (TrafficLight.cycleThroughPhases_iteration ticksPerMs s i).light.getCurrentPhase
          = TrafficLightPhase.red) ∧
      (TrafficLight.cycleThroughPhases_iteration ticksPerMs s i).light._messages._queue
        = [(TrafficLight.cycleThroughPhases_iteration ticksPerMs s i).light.getCurrentPhase] ∧
      (TrafficLight.cycleThroughPhases_iteration ticksPerMs s i).randCycleDuration
        = drawDuration i.rand ∧
      (TrafficLight.cycleThroughPhases_iteration ticksPerMs s i).lastUpdate = i.nowReset) ∧
    (timeSince ticksPerMs s.lastUpdate i.now < s.randCycleDuration →
      TrafficLight.cycleThroughPhases_iteration ticksPerMs s i = s) := by
  constructor
  · intro h
    have hexp : TrafficLight.cycleExpired ticksPerMs s i = true := by
      simpa [TrafficLight.cycleExpired] using h
    rw [TrafficLight.iteration_of_expired ticksPerMs s i hexp]
    refine ⟨?_, ?_, rfl, rfl, rfl⟩
    · intro hp
      simp [TrafficLight.getCurrentPhase, hp]
    · intro hp
      simp [TrafficLight.getCurrentPhase, hp]
  · intro h
    have hexp : TrafficLight.cycleExpired ticksPerMs s i = false := by
      simpa [TrafficLight.cycleExpired] using h
    exact TrafficLight.iteration_of_not_expired ticksPerMs s i hexp

/-- C8 at two iterations of a red light with the duration 4007 drawn and the stop watch at 0:
at time 4007 the cycle has expired, at time 4006 it has not. -/
theorem TrafficLight.cycleThroughPhases_iteration_spec_witness :
    (TrafficLight.cycleThroughPhases_iteration 1
        (TrafficLight.cycleThroughPhases_start TrafficLight.ctor 7 0)
        { now := 4007, rand := 2001, nowReset := 4008 }).light._messages._queue
      = [(TrafficLight.cycleThroughPhases_iteration 1
          (TrafficLight.cycleThroughPhases_start TrafficLight.ctor 7 0)
          { now := 4007, rand := 2001, nowReset := 4008 }).light.getCurrentPhase] ∧
    TrafficLight.cycleThroughPhases_iteration 1
        (TrafficLight.cycleThroughPhases_start TrafficLight.ctor 7 0)
        { now := 4006, rand := 2001, nowReset := 4008 }
      = TrafficLight.cycleThroughPhases_start TrafficLight.ctor 7 0 :=
  ⟨((TrafficLight.cycleThroughPhases_iteration_spec 1
      (TrafficLight.cycleThroughPhases_start TrafficLight.ctor 7 0)
      { now := 4007, rand := 2001, nowReset := 4008 }).1 (by decide)).2.2.1,
    (TrafficLight.cycleThroughPhases_iteration_spec 1
      (TrafficLight.cycleThroughPhases_start TrafficLight.ctor 7 0)
      { now := 4006, rand := 2001, nowReset := 4008 }).2 (by decide)⟩

/-! ## The loop together with consumers -/

theorem alternating_succ (n : Nat) :
    alternating (n + 1)
      = alternating n
        ++ [if n % 2 = 0 then TrafficLightPhase.green else TrafficLightPhase.red] := by
  simp [alternating, List.range_succ]

theorem Simulation.step_consistent (ticksPerMs : Nat) (s s2 : Simulation) (a : SimAction)
    (hs : s.Consistent) (h : s.step ticksPerMs a = some s2) : s2.Consistent := by
  obtain ⟨hpub, hphase, hq⟩ := hs
  cases a with
  | iteration i =>
    simp only [Simulation.step, Option.some.injEq] at h
    subst h
    cases hexp : TrafficLight.cycleExpired ticksPerMs s.cycle i with
    | false =>
      rw [TrafficLight.iteration_of_not_expired ticksPerMs s.cycle i hexp]
      simpa using ⟨hpub, hphase, hq⟩
    | true =>
      rw [TrafficLight.iteration_of_expired ticksPerMs s.cycle i hexp]
      simp only [if_true]
      rcases Nat.mod_two_eq_zero_or_one s.published.length with h0 | h1
      · have hred : s.cycle.light._currentPhase = TrafficLightPhase.red := by
          rw [hphase, h0]
          simp
        refine ⟨?_, ?_, ?_⟩
        · simp only [List.length_append, List.length_singleton, alternating_succ, h0, hred,
            if_true]
          rw [← hpub]
        · have h : (s.published.length + 1) % 2 = 1 := by omega
          simp [hred, h]
        · simp
      · have hgreen : s.cycle.light._currentPhase = TrafficLightPhase.green := by
          rw [hphase, h1]
          simp
        refine ⟨?_, ?_, ?_⟩
        · simp only [List.length_append, List.length_singleton, alternating_succ, h1, hgreen]
          rw [← hpub]
          simp
        · have h : (s.published.length + 1) % 2 = 0 := by omega
          simp [hgreen, h]
        · simp
  | receive =>
    simp only [Simulation.step] at h
    cases hr : s.cycle.light._messages.receive with
    | none => simp [hr] at h
    | some pr =>
      obtain ⟨v, rest⟩ := pr
      simp only [hr, Option.some.injEq] at h
      subst h
      refine ⟨hpub, hphase, ?_⟩
      intro w hw
      apply hq
      cases hl : s.cycle.light._messages._queue with
      | nil => simp [MessageQueue.receive, hl] at hr
      | cons a l =>
        simp only [MessageQueue.receive, hl, Option.some.injEq, Prod.mk.injEq] at hr
        obtain ⟨_, hrest⟩ := hr
        subst hrest
        exact List.mem_cons_of_mem a hw

theorem Simulation.run_consistent (ticksPerMs : Nat) (acts : List SimAction) :
    ∀ s s2 : Simulation, s.Consistent → s.run ticksPerMs acts = some s2 → s2.Consistent := by
  induction acts with
  | nil =>
    intro s s2 hs h
    simp only [Simulation.run, Option.some.injEq] at h
    subst h
    exact hs
  | cons a rest ih =>
    intro s s2 hs h
    simp only [Simulation.run] at h
    cases hstep : s.step ticksPerMs a with
    | none => simp [hstep] at h
    | some s1 =>
      simp only [hstep, Option.some_bind] at h
      exact ih s1 s2 (Simulation.step_consistent ticksPerMs s s1 a hs hstep) h

theorem Simulation.start_consistent (rand0 now0 : Int) :
    (Simulation.start rand0 now0).Consistent := by
  refine ⟨?_, ?_, ?_⟩
  · simp [Simulation.start, alternating]
  · simp [Simulation.start, TrafficLight.cycleThroughPhases_start, TrafficLight.ctor]
  · simp [Simulation.start, TrafficLight.cycleThroughPhases_start, TrafficLight.ctor,
      MessageQueue.empty]

/-- C10: in every state that a newly constructed light reaches by whole loop iterations and
returning receive calls, every pending value of the queue is the value that getCurrentPhase
returns, and the values published so far are green, red, green, ... in this order. -/
theorem Simulation.pending_is_current (ticksPerMs : Nat) (rand0 now0 : Int)
    (acts : List SimAction) (s : Simulation)
    (h : (Simulation.start rand0 now0).run ticksPerMs acts = some s) :
    (∀ v ∈ s.cycle.light._messages._queue, v = s.cycle.light.getCurrentPhase) ∧
    s.published
      = (List.range s.published.length).map
          (fun j => if j % 2 = 0 then TrafficLightPhase.green else TrafficLightPhase.red) := by
  obtain ⟨hpub, _, hq⟩ := Simulation.run_consistent ticksPerMs acts
    (Simulation.start rand0 now0) s (Simulation.start_consistent rand0 now0) h
  exact ⟨hq, hpub⟩

/-- C10 on a run with three expiries and one receive: green is pending and current, and
green, red, green were published. -/
theorem Simulation.pending_is_current_witness :
    (Simulation.start 0 0).run 1
        [SimAction.iteration { now := 4000, rand := 0, nowReset := 4000 },
          SimAction.receive,
          SimAction.iteration { now := 8000, rand := 0, nowReset := 8000 },
          SimAction.iteration { now := 12000, rand := 0, nowReset := 12000 }]
      = some
          { cycle :=
              { light :=
                  { _currentPhase := TrafficLightPhase.green,
                    _messages := { _queue := [TrafficLightPhase.green] } },
                randCycleDuration := 4000,
                lastUpdate := 12000 },
            published :=
              [TrafficLightPhase.green, TrafficLightPhase.red, TrafficLightPhase.green] } ∧
    ∀ v ∈ [TrafficLightPhase.green], v = TrafficLightPhase.green :=
  ⟨by decide,
    (Simulation.pending_is_current 1 0 0
      [SimAction.iteration { now := 4000, rand := 0, nowReset := 4000 },
        SimAction.receive,
        SimAction.iteration { now := 8000, rand := 0, nowReset := 8000 },
        SimAction.iteration { now := 12000, rand := 0, nowReset := 12000 }]
      { cycle :=
          { light :=
              { _currentPhase := TrafficLightPhase.green,
                _messages := { _queue := [TrafficLightPhase.green] } },
            randCycleDuration := 4000,
            lastUpdate := 12000 },
        published :=
          [TrafficLightPhase.green, TrafficLightPhase.red, TrafficLightPhase.green] }
      (by decide)).1⟩


/-! ## Several threads in waitForGreen -/

theorem Scenario.step_inv (s s2 : Scenario) (e : ScenarioEvent) (hs : s.Inv)
    (h : s.step e = some s2) : s2.Inv := by
  obtain ⟨hlen, hpub, hpend, hone, hret⟩ := hs
  cases e with
  | publish =>
    simp only [Scenario.step] at h
    rcases hpub with hp | hp | hp
    · simp only [hp, Option.some.injEq] at h
      subst h
      have hq := hpend (by simp [hp])
      have hc : List.count TrafficLightPhase.green s.light._messages._queue = 0 :=
        List.count_eq_zero.2 hq
      refine ⟨hlen, Or.inr (Or.inl rfl), ?_, ?_, hret⟩
      · intro _
        simp [MessageQueue.send_eq]
      · simp only [Scenario.returnedCount, hp, hc] at hone
        simp only [Scenario.returnedCount, MessageQueue.send_eq]
        simpa using hone
    · simp only [hp, Option.some.injEq] at h
      subst h
      have hq := hpend (by simp [hp])
      have hc : List.count TrafficLightPhase.green s.light._messages._queue = 0 :=
        List.count_eq_zero.2 hq
      refine ⟨hlen, Or.inr (Or.inr rfl), ?_, ?_, hret⟩
      · intro hne
        exact absurd rfl hne
      · simp only [Scenario.returnedCount, hp, hc] at hone
        simp only [Scenario.returnedCount, MessageQueue.send_eq]
        simpa using hone
    · simp [hp] at h
  | receive w =>
    simp only [Scenario.step] at h
    cases hw : s.waiters[w]? with
    | none => simp [hw] at h
    | some wt =>
      simp only [hw] at h
      cases hr : wt.returned with
      | true => simp [hr] at h
      | false =>
        simp only [hr, Bool.false_eq_true, if_false] at h
        cases hl : s.light._messages._queue with
        | nil => simp [Waiter.waitForGreen_iteration, MessageQueue.receive, hl] at h
        | cons v rest =>
          simp only [Waiter.waitForGreen_iteration, MessageQueue.receive, hl,
            Option.some.injEq] at h
          subst h
          obtain ⟨hwlt, hget⟩ := List.getElem?_eq_some.1 hw
          refine ⟨by simpa using hlen, hpub, ?_, ?_, ?_⟩
          · intro hne hmem
            exact hpend hne (by rw [hl]; exact List.mem_cons_of_mem v hmem)
          · simp only [Scenario.returnedCount, hl] at hone
            simp only [Scenario.returnedCount]
            rw [List.countP_set _ _ _ _ hwlt]
            have hgetr : (s.waiters[w]).returned = false := by
              have : s.waiters[w] = wt := hget
              rw [this, hr]
            simp only [hgetr, Bool.false_eq_true, if_false, Nat.sub_zero]
            cases v with
            | red => simpa using hone
            | green =>
              simp only [List.count_cons_self] at hone
              simp only [decide_True, if_true]
              omega
          · intro w2 hmem hret2
            rcases List.mem_or_eq_of_mem_set hmem with hin | heq
            · exact hret w2 hin hret2
            · subst heq
              simp only [decide_eq_true_eq] at hret2
              simp [hret2]

theorem Scenario.run_inv (events : List ScenarioEvent) :
    ∀ s s2 : Scenario, s.Inv → s.run events = some s2 → s2.Inv := by
  induction events with
  | nil =>
    intro s s2 hs h
    simp only [Scenario.run, Option.some.injEq] at h
    subst h
    exact hs
  | cons e rest ih =>
    intro s s2 hs h
    simp only [Scenario.run] at h
    cases hstep : s.step e with
    | none => simp [hstep] at h
    | some s1 =>
      simp only [hstep, Option.some_bind] at h
      exact ih s1 s2 (Scenario.step_inv s s1 e hs hstep) h

theorem fiveWaiters_inv : fiveWaiters.Inv := by
  refine ⟨rfl, Or.inl rfl, ?_, ?_, ?_⟩
  · intro _
    simp [fiveWaiters, TrafficLight.ctor, MessageQueue.empty]
  · decide
  · intro w hw hret
    simp only [fiveWaiters, List.mem_replicate] at hw
    rw [hw.2] at hret
    exact absurd hret (by decide)

/-- C5, as the code has it: in every state that the five waiting threads reach while red and
then green are sent, at most one of the five waitForGreen calls has returned; once both
values are sent and the queue is drained exactly one has returned; and a call that has
returned has received green, so none returns after having received only red. -/
theorem fiveWaiters_one_returns (events : List ScenarioEvent) (s : Scenario)
    (h : fiveWaiters.run events = some s) :
    s.waiters.length = 5 ∧ s.returnedCount ≤ 1 ∧
    (s.toPublish = [] → s.light._messages._queue = [] → s.returnedCount = 1) ∧
    ∀ w ∈ s.waiters, w.returned = true → TrafficLightPhase.green ∈ w.received := by
  obtain ⟨hlen, _, _, hone, hret⟩ := Scenario.run_inv events fiveWaiters s fiveWaiters_inv h
  refine ⟨hlen, by omega, ?_, hret⟩
  intro hp hq
  rw [hp, hq] at hone
  simpa using hone

/-- C5 on the schedule where red and green are sent back to back and the thread number 3
then receives: it receives green and returns, and it is the only one. -/
theorem fiveWaiters_one_returns_witness :
    fiveWaiters.run
        [ScenarioEvent.publish, ScenarioEvent.publish, ScenarioEvent.receive 3]
      = some
          { light := { _currentPhase := TrafficLightPhase.red, _messages := { _queue := [] } },
            toPublish := [],
            waiters :=
              [{ received := [], returned := false }, { received := [], returned := false },
                { received := [], returned := false },
                { received := [TrafficLightPhase.green], returned := true },
                { received := [], returned := false }] } ∧
    Scenario.returnedCount
        { light := { _currentPhase := TrafficLightPhase.red, _messages := { _queue := [] } },
          toPublish := [],
          waiters :=
            [{ received := [], returned := false }, { received := [], returned := false },
              { received := [], returned := false },
              { received := [TrafficLightPhase.green], returned := true },
              { received := [], returned := false }] } ≤ 1 :=
  ⟨by decide,
    (fiveWaiters_one_returns
      [ScenarioEvent.publish, ScenarioEvent.publish, ScenarioEvent.receive 3]
      { light := { _currentPhase := TrafficLightPhase.red, _messages := { _queue := [] } },
        toPublish := [],
        waiters :=
          [{ received := [], returned := false }, { received := [], returned := false },
            { received := [], returned := false },
            { received := [TrafficLightPhase.green], returned := true },
            { received := [], returned := false }] }
      (by decide)).2.1⟩

/-- C5 fails as stated: red is sent and the thread number 0 receives it, green is sent and the
thread number 0 receives it and returns.  Both values are then consumed, the other four
threads have not returned, and no further step is possible: they stay blocked. -/
theorem fiveWaiters_not_all_return :
    ∃ s : Scenario,
      fiveWaiters.run
          [ScenarioEvent.publish, ScenarioEvent.receive 0, ScenarioEvent.publish,
            ScenarioEvent.receive 0] = some s ∧
      s.waiters.map (fun w => w.returned) = [true, false, false, false, false] ∧
      s.toPublish = [] ∧ s.light._messages._queue = [] ∧
      ∀ e : ScenarioEvent, s.step e = none := by
  refine ⟨{ light := { _currentPhase := TrafficLightPhase.red, _messages := { _queue := [] } },
            toPublish := [],
            waiters :=
              [{ received := [TrafficLightPhase.red, TrafficLightPhase.green],
                 returned := true },
                { received := [], returned := false }, { received := [], returned := false },
                { received := [], returned := false },
                { received := [], returned := false }] }, by decide, rfl, rfl, rfl, ?_⟩
  intro e
  cases e with
  | publish => rfl
  | receive w =>
    match w with
    | 0 => rfl
    | 1 => rfl
    | 2 => rfl
    | 3 => rfl
    | 4 => rfl
    | n + 5 => rfl

end TrafficSim
